import Mathlib

/-!
Shallow embedding of lld's wasm output-section layer (`src/wasm/OutputSections.h`).

Bytes are modelled as `Nat`, byte sequences as `List Nat`, the output buffer as a
total function `Nat → Nat` (one byte per file position).  An assertion failure
(`assert(...)` in C++) is modelled as `none` in an `Option`-valued operation.
The class hierarchy is flattened: each concrete section kind becomes a structure
carrying the fields it has in the source (inherited fields included), and the
virtual dispatch is mirrored by the sum type `Sect` at the end.
-/

/-- Wasm section-type tag for custom sections (`llvm::wasm::WASM_SEC_CUSTOM`). -/
def WASM_SEC_CUSTOM : Nat := 0

/-- Wasm section-type tag for the code section (`llvm::wasm::WASM_SEC_CODE`). -/
def WASM_SEC_CODE : Nat := 10

/-- Wasm section-type tag for the data section (`llvm::wasm::WASM_SEC_DATA`). -/
def WASM_SEC_DATA : Nat := 11

/-- Modelled from the spec: the unsigned variable-length integer encoder
(base-128, little-endian group order) used for all size fields; the encoder
itself lives in `WriterUtils`, which is not under `src/`. -/
def encodeULEB128 (n : Nat) : List Nat :=
  if h : n < 128 then [n] else (n % 128 + 128) :: encodeULEB128 (n / 128)
termination_by n
decreasing_by exact Nat.div_lt_self (by omega) (by omega)

/-- Modelled from the spec: `writeStr` from `WriterUtils` (not under `src/`)
writes a length-prefixed string: the byte length as a varint, then the bytes. -/
def encodeStr (s : List Nat) : List Nat :=
  encodeULEB128 s.length ++ s

/-- Modelled from the spec: `OutputSection::createHeader` (declared at
`OutputSections.h:40`, body not under `src/`) produces one section-type tag
byte followed by the body size as a varint. -/
def mkHeader (t bodySize : Nat) : List Nat :=
  t :: encodeULEB128 bodySize

/-- Overwrite `bs.length` bytes of the buffer starting at `off`
(the effect of one `memcpy(Buf + off, bs.data(), bs.size())`). -/
def writeBytes (buf : Nat → Nat) (off : Nat) (bs : List Nat) : Nat → Nat :=
  fun i => if off ≤ i ∧ i < off + bs.length then bs.getD (i - off) 0 else buf i

/-- State of a `SyntheticSection` (which is-an `OutputSection`): the inherited
fields `Type` (here `SecType`, since `Type` is reserved in Lean), `Name`,
`Header`, `Offset`, plus the owned `Body` string and the bytes sitting in the
`raw_string_ostream` buffer (`pending`) that have not been flushed into `Body`. -/
@[ext] structure SyntheticSection where
  SecType : Nat
  Name : List Nat
  Header : List Nat
  Offset : Nat
  Body : List Nat
  pending : List Nat
deriving Repr, DecidableEq

/-- The `SyntheticSection(Type, Name)` constructor (`OutputSections.h:57-61`):
all state starts empty except that a non-empty name is immediately written,
length-prefixed, to the body output stream. -/
def SyntheticSection.init (t : Nat) (name : List Nat) : SyntheticSection :=
  { SecType := t, Name := name, Header := [], Offset := 0, Body := [],
    pending := if name = [] then [] else encodeStr name }

/-- `OutputSection::setOffset` (`OutputSections.h:36-39`): records the new
offset (the `log` call has no observable effect on the state). -/
def SyntheticSection.setOffset (s : SyntheticSection) (newOffset : Nat) : SyntheticSection :=
  { s with Offset := newOffset }

/-- Appending bytes to the section's body output stream (`getStream()`). -/
def SyntheticSection.writeToStream (s : SyntheticSection) (bs : List Nat) : SyntheticSection :=
  { s with pending := s.pending ++ bs }

/-- `raw_string_ostream::flush`: moves the buffered bytes into `Body`. -/
def SyntheticSection.flush (s : SyntheticSection) : SyntheticSection :=
  { s with Body := s.Body ++ s.pending, pending := [] }

/-- `createHeader(BodySize)` as it acts on a synthetic section: stores the
encoded header. -/
def SyntheticSection.createHeader (s : SyntheticSection) (bodySize : Nat) : SyntheticSection :=
  { s with Header := mkHeader s.SecType bodySize }

/-- `SyntheticSection::finalizeContents` (`OutputSections.h:74-78`): run the
virtual `writeBody()` hook (modelled by the bytes `wb s` it appends to the
stream; the base-class hook appends nothing), flush the stream, then create
the header from the accumulated body size. -/
def SyntheticSection.finalizeContents (wb : SyntheticSection → List Nat)
    (s : SyntheticSection) : SyntheticSection :=
  let s1 := s.writeToStream (wb s)
  let s2 := s1.flush
  s2.createHeader s2.Body.length

/-- `SyntheticSection::getSize` (`OutputSections.h:70`): header plus body
length; no assertion, hence always `some`. -/
def SyntheticSection.getSize (s : SyntheticSection) : Option Nat :=
  some (s.Header.length + s.Body.length)

/-- The buffer produced by the two `memcpy` calls of
`SyntheticSection::writeTo` (`OutputSections.h:66-67`). -/
def SyntheticSection.writeToFn (s : SyntheticSection) (buf : Nat → Nat) : Nat → Nat :=
  writeBytes (writeBytes buf s.Offset s.Header) (s.Offset + s.Header.length) s.Body

/-- `SyntheticSection::writeTo` (`OutputSections.h:63-68`): `assert(Offset)`
fails (modelled as `none`) exactly when the offset is zero; otherwise the
header and body are copied into the buffer at `Offset`. -/
def SyntheticSection.writeTo (s : SyntheticSection) (buf : Nat → Nat) : Option (Nat → Nat) :=
  if s.Offset = 0 then none else some (s.writeToFn buf)

/-- An already-compiled input function as consumed here: its encoded bytes and
its relocation records (each already encoded as bytes). -/
structure InputFunction where
  bytes : List Nat
  relocs : List (List Nat)
deriving Repr, DecidableEq

/-- An output data segment as consumed here: its full encoded contribution
(segment header plus payload) and its relocation records. -/
structure OutputSegment where
  bytes : List Nat
  relocs : List (List Nat)
deriving Repr, DecidableEq

/-- An input custom-section fragment: raw payload bytes and relocation records. -/
structure InputSection where
  bytes : List Nat
  relocs : List (List Nat)
deriving Repr, DecidableEq

/-- State of a `CodeSection` (`OutputSections.h:88-103`): inherited
`OutputSection` fields plus the borrowed function list and the cached
`BodySize` (zero until finalize). -/
@[ext] structure CodeSection where
  SecType : Nat
  Name : List Nat
  Header : List Nat
  Offset : Nat
  Functions : List InputFunction
  BodySize : Nat
deriving Repr, DecidableEq

/-- The `CodeSection(Functions)` constructor (`OutputSections.h:90-91`). -/
def CodeSection.init (fns : List InputFunction) : CodeSection :=
  { SecType := WASM_SEC_CODE, Name := [], Header := [], Offset := 0,
    Functions := fns, BodySize := 0 }

/-- `OutputSection::setOffset` as inherited by `CodeSection`. -/
def CodeSection.setOffset (c : CodeSection) (newOffset : Nat) : CodeSection :=
  { c with Offset := newOffset }

/-- The code-section body bytes: each function's encoded bytes, contiguously,
in list order. -/
def CodeSection.bodyBytes (c : CodeSection) : List Nat :=
  (c.Functions.map InputFunction.bytes).flatten

/-- Modelled from the spec: `CodeSection::finalizeContents` (declared at
`OutputSections.h:97`, body not under `src/`) sums the function sizes to get
the body size, caches it, and creates the header from it. -/
def CodeSection.finalizeContents (c : CodeSection) : CodeSection :=
  let bs := (c.Functions.map (fun f => f.bytes.length)).sum
  { c with BodySize := bs, Header := mkHeader c.SecType bs }

/-- `CodeSection::getSize` (`OutputSections.h:93`): `assert(BodySize)` fails
(modelled as `none`) when the cached body size is zero. -/
def CodeSection.getSize (c : CodeSection) : Option Nat :=
  if c.BodySize = 0 then none else some (c.Header.length + c.BodySize)

/-- Modelled from the spec: `CodeSection::writeTo` (body not under `src/`)
writes the header then each function's bytes contiguously at the offset. -/
def CodeSection.writeTo (c : CodeSection) (buf : Nat → Nat) : Option (Nat → Nat) :=
  if c.Offset = 0 then none
  else some (writeBytes (writeBytes buf c.Offset c.Header)
    (c.Offset + c.Header.length) c.bodyBytes)

/-- Modelled from the spec: `CodeSection::numRelocations` (body not under
`src/`) is the sum of each function's own relocation count. -/
def CodeSection.numRelocations (c : CodeSection) : Nat :=
  (c.Functions.map (fun f => f.relocs.length)).sum

/-- Modelled from the spec: `CodeSection::writeRelocations` (body not under
`src/`) forwards every function's relocation records, in order, to the stream. -/
def CodeSection.writeRelocations (c : CodeSection) (os : List Nat) : List Nat :=
  os ++ (c.Functions.map (fun f => f.relocs.flatten)).flatten

/-- State of a `DataSection` (`OutputSections.h:105-120`). -/
@[ext] structure DataSection where
  SecType : Nat
  Name : List Nat
  Header : List Nat
  Offset : Nat
  Segments : List OutputSegment
  BodySize : Nat
deriving Repr, DecidableEq

/-- The `DataSection(Segments)` constructor (`OutputSections.h:107-108`). -/
def DataSection.init (segs : List OutputSegment) : DataSection :=
  { SecType := WASM_SEC_DATA, Name := [], Header := [], Offset := 0,
    Segments := segs, BodySize := 0 }

/-- `OutputSection::setOffset` as inherited by `DataSection`. -/
def DataSection.setOffset (d : DataSection) (newOffset : Nat) : DataSection :=
  { d with Offset := newOffset }

/-- The data-section body bytes: each segment's encoded contribution, in order. -/
def DataSection.bodyBytes (d : DataSection) : List Nat :=
  (d.Segments.map OutputSegment.bytes).flatten

/-- Modelled from the spec: `DataSection::finalizeContents` (declared at
`OutputSections.h:114`, body not under `src/`) sums the segment sizes into the
cached body size and creates the header from it. -/
def DataSection.finalizeContents (d : DataSection) : DataSection :=
  let bs := (d.Segments.map (fun g => g.bytes.length)).sum
  { d with BodySize := bs, Header := mkHeader d.SecType bs }

/-- `DataSection::getSize` (`OutputSections.h:110`): header plus cached body
size, with no assertion. -/
def DataSection.getSize (d : DataSection) : Option Nat :=
  some (d.Header.length + d.BodySize)

/-- Modelled from the spec: `DataSection::numRelocations` (body not under
`src/`) is the sum of each segment's own relocation count. -/
def DataSection.numRelocations (d : DataSection) : Nat :=
  (d.Segments.map (fun g => g.relocs.length)).sum

/-- Modelled from the spec: `DataSection::writeRelocations` (body not under
`src/`) forwards every segment's relocation records, in order. -/
def DataSection.writeRelocations (d : DataSection) (os : List Nat) : List Nat :=
  os ++ (d.Segments.map (fun g => g.relocs.flatten)).flatten

/-- State of a `CustomSection` (`OutputSections.h:129-146`). -/
@[ext] structure CustomSection where
  SecType : Nat
  Name : List Nat
  Header : List Nat
  Offset : Nat
  PayloadSize : Nat
  InputSections : List InputSection
  NameData : List Nat
deriving Repr, DecidableEq

/-- The `CustomSection(Name, InputSections)` constructor
(`OutputSections.h:131-133`). -/
def CustomSection.init (name : List Nat) (ins : List InputSection) : CustomSection :=
  { SecType := WASM_SEC_CUSTOM, Name := name, Header := [], Offset := 0,
    PayloadSize := 0, InputSections := ins, NameData := [] }

/-- `OutputSection::setOffset` as inherited by `CustomSection`. -/
def CustomSection.setOffset (u : CustomSection) (newOffset : Nat) : CustomSection :=
  { u with Offset := newOffset }

/-- The custom-section body bytes: the length-prefixed name, then each input
fragment's raw payload, concatenated in order. -/
def CustomSection.bodyBytes (u : CustomSection) : List Nat :=
  u.NameData ++ (u.InputSections.map InputSection.bytes).flatten

/-- Modelled from the spec: `CustomSection::finalizeContents` (declared at
`OutputSections.h:140`, body not under `src/`) encodes the name into
`NameData`, sums the fragment sizes into `PayloadSize` (name excluded), and
creates the header over name plus payload. -/
def CustomSection.finalizeContents (u : CustomSection) : CustomSection :=
  let nd := encodeStr u.Name
  let ps := (u.InputSections.map (fun i => i.bytes.length)).sum
  { u with
    NameData := nd, PayloadSize := ps,
    Header := mkHeader u.SecType (nd.length + ps) }

/-- `CustomSection::getSize` (`OutputSections.h:134-136`): header plus name
data plus payload size, with no assertion. -/
def CustomSection.getSize (u : CustomSection) : Option Nat :=
  some (u.Header.length + u.NameData.length + u.PayloadSize)

/-- Modelled from the spec: `CustomSection::numRelocations` (body not under
`src/`) is the sum of each contributing fragment's relocation count. -/
def CustomSection.numRelocations (u : CustomSection) : Nat :=
  (u.InputSections.map (fun i => i.relocs.length)).sum

/-- Modelled from the spec: `CustomSection::writeRelocations` (body not under
`src/`) forwards every fragment's relocation records, in order. -/
def CustomSection.writeRelocations (u : CustomSection) (os : List Nat) : List Nat :=
  os ++ (u.InputSections.map (fun i => i.relocs.flatten)).flatten

/-- Modelled from the spec: the body a `RelocSection::writeBody` override
(declared at `OutputSections.h:153`, body not under `src/`) appends to the
stream: the target section index, the relocation count, then the records. -/
def relocSectionBody (sectionIndex relocCount : Nat) (relocBytes : List Nat) : List Nat :=
  encodeULEB128 sectionIndex ++ encodeULEB128 relocCount ++ relocBytes

/-- The `RelocSection(Name, Sec, SectionIndex)` constructor
(`OutputSections.h:150-152`): a synthetic section of custom type. -/
def RelocSection.init (name : List Nat) : SyntheticSection :=
  SyntheticSection.init WASM_SEC_CUSTOM name

/-- The `writeBody` hook of a relocation section, as a stream-contribution
function: it appends the target index, count and records. -/
def RelocSection.writeBody (sectionIndex relocCount : Nat) (relocBytes : List Nat) :
    SyntheticSection → List Nat :=
  fun _ => relocSectionBody sectionIndex relocCount relocBytes

/-- `finalizeContents` as inherited by `RelocSection`: the synthetic finalize
with the relocation `writeBody` hook. -/
def RelocSection.finalizeContents (sectionIndex relocCount : Nat) (relocBytes : List Nat)
    (s : SyntheticSection) : SyntheticSection :=
  SyntheticSection.finalizeContents (RelocSection.writeBody sectionIndex relocCount relocBytes) s

/-- The closed set of concrete section kinds, mirroring the virtual dispatch
of `OutputSection`: synthetic and relocation sections do not override the
relocation operations; code, data and custom sections do. -/
inductive Sect where
  | synthetic : SyntheticSection → Sect
  | reloc : SyntheticSection → Sect
  | code : CodeSection → Sect
  | data : DataSection → Sect
  | custom : CustomSection → Sect
deriving Repr, DecidableEq

/-- Virtual dispatch of `numRelocations` (`OutputSections.h:44` default,
overridden at lines 95, 112, 138). -/
def Sect.numRelocations : Sect → Nat
  | .synthetic _ => 0
  | .reloc _ => 0
  | .code c => c.numRelocations
  | .data d => d.numRelocations
  | .custom u => u.numRelocations

/-- Virtual dispatch of `writeRelocations` (`OutputSections.h:45` default —
writes nothing — overridden at lines 96, 113, 139); the stream is the list of
bytes written so far. -/
def Sect.writeRelocations : Sect → List Nat → List Nat
  | .synthetic _, os => os
  | .reloc _, os => os
  | .code c, os => c.writeRelocations os
  | .data d, os => d.writeRelocations os
  | .custom u, os => u.writeRelocations os

/-- A byte below an overwritten range is untouched by `writeBytes`. -/
theorem writeBytes_of_lt (buf : Nat → Nat) (off : Nat) (bs : List Nat) (i : Nat)
    (h : i < off) : writeBytes buf off bs i = buf i := by
  unfold writeBytes
  rw [if_neg (by omega)]

/-- A byte past an overwritten range is untouched by `writeBytes`. -/
theorem writeBytes_of_ge (buf : Nat → Nat) (off : Nat) (bs : List Nat) (i : Nat)
    (h : off + bs.length ≤ i) : writeBytes buf off bs i = buf i := by
  unfold writeBytes
  rw [if_neg (by omega)]

/-- Inside the overwritten range, `writeBytes` places the copied bytes. -/
theorem writeBytes_at (buf : Nat → Nat) (off : Nat) (bs : List Nat) (j : Nat)
    (h : j < bs.length) : writeBytes buf off bs (off + j) = bs.getD j 0 := by
  unfold writeBytes
  rw [if_pos (by omega)]
  have h2 : off + j - off = j := by omega
  rw [h2]

/-- The buffer `SyntheticSection::writeTo` produces: header bytes at
`[Offset, Offset+hdr)`, body bytes at `[Offset+hdr, Offset+hdr+body)`, and
every other byte unchanged. -/
theorem writeToFn_frame (s : SyntheticSection) (buf : Nat → Nat) :
    (∀ i, i < s.Offset → s.writeToFn buf i = buf i) ∧
    (∀ i, s.Offset + s.Header.length + s.Body.length ≤ i → s.writeToFn buf i = buf i) ∧
    (∀ j, j < s.Header.length → s.writeToFn buf (s.Offset + j) = s.Header.getD j 0) ∧
    (∀ j, j < s.Body.length →
      s.writeToFn buf (s.Offset + s.Header.length + j) = s.Body.getD j 0) := by
  unfold SyntheticSection.writeToFn
  refine ⟨fun i hi => ?_, fun i hi => ?_, fun j hj => ?_, fun j hj => ?_⟩
  · rw [writeBytes_of_lt _ _ _ _ (by omega), writeBytes_of_lt _ _ _ _ hi]
  · rw [writeBytes_of_ge _ _ _ _ (by omega), writeBytes_of_ge _ _ _ _ (by omega)]
  · rw [writeBytes_of_lt _ _ _ _ (by omega), writeBytes_at _ _ _ _ hj]
  · rw [writeBytes_at _ _ _ _ hj]

/-- Claim C1, counterexample: a code section finalized over an empty function
list has a zero cached body size, so `getSize` fails its assertion (`none`)
instead of returning header length plus (empty) body length. -/
theorem C1_code_empty_body_counterexample :
    (CodeSection.finalizeContents (CodeSection.init [])).getSize ≠
      some ((CodeSection.finalizeContents (CodeSection.init [])).Header.length +
            (CodeSection.finalizeContents (CodeSection.init [])).bodyBytes.length) := by
  simp [CodeSection.finalizeContents, CodeSection.init, CodeSection.getSize]

/-- Claim C1 (amended): after finalize, `getSize` is header length plus body
length for synthetic, data and custom sections with any body, and for code
sections whose function bytes are non-empty; the code section's assertion
rejects an empty finalized body. -/
theorem C1_size_after_finalize_amended (wb : SyntheticSection → List Nat)
    (s : SyntheticSection) (c : CodeSection) (d : DataSection) (u : CustomSection)
    (hc : (c.Functions.map (fun f => f.bytes.length)).sum ≠ 0) :
    ((SyntheticSection.finalizeContents wb s).getSize =
      some ((SyntheticSection.finalizeContents wb s).Header.length +
            (SyntheticSection.finalizeContents wb s).Body.length)) ∧
    ((CodeSection.finalizeContents c).getSize =
      some ((CodeSection.finalizeContents c).Header.length +
            (CodeSection.finalizeContents c).bodyBytes.length)) ∧
    ((DataSection.finalizeContents d).getSize =
      some ((DataSection.finalizeContents d).Header.length +
            (DataSection.finalizeContents d).bodyBytes.length)) ∧
    ((CustomSection.finalizeContents u).getSize =
      some ((CustomSection.finalizeContents u).Header.length +
            (CustomSection.finalizeContents u).bodyBytes.length)) := by
  refine ⟨rfl, ?_, ?_, ?_⟩
  · simp [CodeSection.finalizeContents, CodeSection.getSize, CodeSection.bodyBytes,
      List.length_flatten, List.map_map, Function.comp_def, hc]
  · simp [DataSection.finalizeContents, DataSection.getSize, DataSection.bodyBytes,
      List.length_flatten, List.map_map, Function.comp_def]
  · simp [CustomSection.finalizeContents, CustomSection.getSize, CustomSection.bodyBytes,
      List.length_flatten, List.map_map, Function.comp_def, Nat.add_assoc]

/-- Claim C1, witness: the amended theorem applied to a one-function code
section (its single function one byte long). -/
theorem C1_size_witness :
    ((CodeSection.init [⟨[1], []⟩]).Functions.map (fun f => f.bytes.length)).sum ≠ 0 ∧
    (CodeSection.finalizeContents (CodeSection.init [⟨[1], []⟩])).getSize =
      some ((CodeSection.finalizeContents (CodeSection.init [⟨[1], []⟩])).Header.length +
            (CodeSection.finalizeContents (CodeSection.init [⟨[1], []⟩])).bodyBytes.length) :=
  ⟨by decide,
   (C1_size_after_finalize_amended (fun _ => []) (SyntheticSection.init 0 [])
     (CodeSection.init [⟨[1], []⟩]) (DataSection.init []) (CustomSection.init [] [])
     (by decide)).2.1⟩

/-- Claim C2, counterexample: a synthetic section that was never finalized but
has a non-zero offset is written without any assertion failure — `writeTo`
checks only the offset, not that finalize completed. -/
theorem C2_unfinalized_write_counterexample :
    ((SyntheticSection.init WASM_SEC_CUSTOM []).setOffset 5).writeTo (fun _ => 0) ≠ none := by
  simp [SyntheticSection.writeTo, SyntheticSection.setOffset, SyntheticSection.init]

/-- Claim C2 (amended): `writeTo` asserts exactly that the offset is non-zero
(failing, as `none`, at the unset/zero offset); with any non-zero offset it
proceeds and copies the current header and body, whether or not finalize ran. -/
theorem C2_writeTo_precondition_amended (s : SyntheticSection) (buf : Nat → Nat) :
    (s.Offset = 0 → s.writeTo buf = none) ∧
    (s.Offset ≠ 0 → s.writeTo buf = some (s.writeToFn buf)) := by
  constructor <;> intro h <;> simp [SyntheticSection.writeTo, h]

/-- Claim C2, witness: the amended theorem at a fresh section (offset zero,
write rejected) and at the same section with offset five (write proceeds). -/
theorem C2_writeTo_witness :
    (SyntheticSection.init WASM_SEC_CODE []).writeTo (fun _ => 0) = none ∧
    ((SyntheticSection.init WASM_SEC_CODE []).setOffset 5).writeTo (fun _ => 0) =
      some (((SyntheticSection.init WASM_SEC_CODE []).setOffset 5).writeToFn (fun _ => 0)) :=
  ⟨(C2_writeTo_precondition_amended (SyntheticSection.init WASM_SEC_CODE []) (fun _ => 0)).1 rfl,
   (C2_writeTo_precondition_amended ((SyntheticSection.init WASM_SEC_CODE []).setOffset 5)
     (fun _ => 0)).2 (by decide)⟩

/-- Claim C3, counterexample: a data section's `getSize` before finalize does
not fail — it silently returns zero (empty header plus zero cached body size). -/
theorem C3_data_size_before_finalize_counterexample :
    (DataSection.init []).getSize = some 0 := rfl

/-- Claim C3 (amended): only the code section's `getSize` is
assertion-guarded (failing exactly when the cached body size is zero); the
data, custom and synthetic sections' `getSize` always return the current
header/body/name/payload lengths with no finalize check. -/
theorem C3_getSize_assertions_amended (c : CodeSection) (d : DataSection)
    (u : CustomSection) (s : SyntheticSection) :
    (c.BodySize = 0 → c.getSize = none) ∧
    (c.BodySize ≠ 0 → c.getSize = some (c.Header.length + c.BodySize)) ∧
    d.getSize = some (d.Header.length + d.BodySize) ∧
    u.getSize = some (u.Header.length + u.NameData.length + u.PayloadSize) ∧
    s.getSize = some (s.Header.length + s.Body.length) := by
  refine ⟨fun h => ?_, fun h => ?_, rfl, rfl, rfl⟩ <;> simp [CodeSection.getSize, h]

/-- Claim C3, witness: the amended theorem at a fresh code section (assertion
fires) and at a finalized two-byte code section (assertion passes). -/
theorem C3_getSize_witness :
    (CodeSection.init []).getSize = none ∧
    (CodeSection.finalizeContents (CodeSection.init [⟨[2, 3], []⟩])).getSize =
      some ((CodeSection.finalizeContents (CodeSection.init [⟨[2, 3], []⟩])).Header.length +
            (CodeSection.finalizeContents (CodeSection.init [⟨[2, 3], []⟩])).BodySize) :=
  ⟨(C3_getSize_assertions_amended (CodeSection.init []) (DataSection.init [])
      (CustomSection.init [] []) (SyntheticSection.init 0 [])).1 rfl,
   (C3_getSize_assertions_amended (CodeSection.finalizeContents (CodeSection.init [⟨[2, 3], []⟩]))
      (DataSection.init []) (CustomSection.init [] []) (SyntheticSection.init 0 [])).2.1
      (by decide)⟩

/-- Claim C4: for a finalized synthetic section with an assigned (non-zero)
offset, `writeTo` succeeds and yields a buffer holding the header bytes at
`[off, off+hdr)`, the body bytes at `[off+hdr, off+size)`, and every byte
outside `[off, off+size)` unchanged, where `size = hdr + body` is `getSize`. -/
theorem C4_writeTo_layout_frame (wb : SyntheticSection → List Nat) (s0 : SyntheticSection)
    (off : Nat) (s : SyntheticSection) (buf : Nat → Nat)
    (hs : s = (SyntheticSection.finalizeContents wb s0).setOffset off) (hoff : off ≠ 0) :
    s.writeTo buf = some (s.writeToFn buf) ∧
    s.getSize = some (s.Header.length + s.Body.length) ∧
    (∀ i, i < off → s.writeToFn buf i = buf i) ∧
    (∀ i, off + s.Header.length + s.Body.length ≤ i → s.writeToFn buf i = buf i) ∧
    (∀ j, j < s.Header.length → s.writeToFn buf (off + j) = s.Header.getD j 0) ∧
    (∀ j, j < s.Body.length →
      s.writeToFn buf (off + s.Header.length + j) = s.Body.getD j 0) := by
  have hOff : s.Offset = off := by rw [hs]; rfl
  obtain ⟨h1, h2, h3, h4⟩ := writeToFn_frame s buf
  rw [hOff] at h1 h2 h3 h4
  refine ⟨?_, rfl, h1, h2, h3, h4⟩
  simp [SyntheticSection.writeTo, hOff, hoff]

/-- Claim C4, witness: the layout theorem applied at offset three to a
finalized one-byte-body section; the byte below the offset is untouched. -/
theorem C4_writeTo_witness :
    (3 : Nat) ≠ 0 ∧
    ((SyntheticSection.finalizeContents (fun _ => [7]) (SyntheticSection.init 1 [])).setOffset
        3).writeToFn (fun _ => 9) 0 = 9 :=
  ⟨by decide,
   (C4_writeTo_layout_frame (fun _ => [7]) (SyntheticSection.init 1 []) 3
     ((SyntheticSection.finalizeContents (fun _ => [7]) (SyntheticSection.init 1 [])).setOffset 3)
     (fun _ => 9) rfl (by decide)).2.2.1 0 (by decide)⟩

/-- Claim C5: finalize runs the `writeBody` hook, then flushes the stream
(the hook's bytes land after whatever was already accumulated), then stores a
header encoding the section type and the final body size. -/
theorem C5_finalize_order (wb : SyntheticSection → List Nat) (s : SyntheticSection) :
    (SyntheticSection.finalizeContents wb s).Body = s.Body ++ s.pending ++ wb s ∧
    (SyntheticSection.finalizeContents wb s).pending = [] ∧
    (SyntheticSection.finalizeContents wb s).Header =
      mkHeader s.SecType (SyntheticSection.finalizeContents wb s).Body.length := by
  simp [SyntheticSection.finalizeContents, SyntheticSection.flush,
    SyntheticSection.writeToStream, SyntheticSection.createHeader]

/-- Claim C6: a synthetic section constructed with a non-empty name has the
length-prefixed name as the sole pre-written stream content, so after finalize
the body is the encoded name followed by the subclass `writeBody` content; an
empty name pre-writes nothing and the body starts empty. -/
theorem C6_name_prewritten (t : Nat) (name : List Nat) (wb : SyntheticSection → List Nat) :
    (SyntheticSection.init t name).Body = [] ∧
    (SyntheticSection.init t name).pending = (if name = [] then [] else encodeStr name) ∧
    (SyntheticSection.finalizeContents wb (SyntheticSection.init t name)).Body =
      (if name = [] then [] else encodeULEB128 name.length ++ name) ++
        wb (SyntheticSection.init t name) := by
  refine ⟨rfl, rfl, ?_⟩
  by_cases h : name = [] <;>
    simp [SyntheticSection.finalizeContents, SyntheticSection.init, SyntheticSection.flush,
      SyntheticSection.writeToStream, SyntheticSection.createHeader, encodeStr, h]

/-- Claim C7, counterexample: a relocation section (whose `writeBody` hook
appends the target index and count) finalized twice does not keep its body:
the second finalize appends the payload again. -/
theorem C7_reloc_double_finalize_counterexample :
    (RelocSection.finalizeContents 0 0 [] (RelocSection.finalizeContents 0 0 []
      (SyntheticSection.init WASM_SEC_CUSTOM [97]))).Body ≠
    (RelocSection.finalizeContents 0 0 [] (SyntheticSection.init WASM_SEC_CUSTOM [97])).Body := by
  simp [RelocSection.finalizeContents, RelocSection.writeBody, relocSectionBody,
    SyntheticSection.finalizeContents, SyntheticSection.init, SyntheticSection.flush,
    SyntheticSection.writeToStream, SyntheticSection.createHeader, encodeStr,
    encodeULEB128, mkHeader, WASM_SEC_CUSTOM]

/-- Claim C7 (amended): finalize is idempotent for the code, data and custom
sections and for synthetic sections whose `writeBody` hook appends nothing;
it is not idempotent for synthetic subclasses whose hook appends bytes
(relocation sections), where a second call appends the payload again. -/
theorem C7_finalize_idempotent_amended (s : SyntheticSection) (c : CodeSection)
    (d : DataSection) (u : CustomSection) :
    SyntheticSection.finalizeContents (fun _ => [])
        (SyntheticSection.finalizeContents (fun _ => []) s) =
      SyntheticSection.finalizeContents (fun _ => []) s ∧
    CodeSection.finalizeContents (CodeSection.finalizeContents c) =
      CodeSection.finalizeContents c ∧
    DataSection.finalizeContents (DataSection.finalizeContents d) =
      DataSection.finalizeContents d ∧
    CustomSection.finalizeContents (CustomSection.finalizeContents u) =
      CustomSection.finalizeContents u := by
  refine ⟨?_, ?_, ?_, ?_⟩ <;>
    simp [SyntheticSection.finalizeContents, SyntheticSection.flush,
      SyntheticSection.writeToStream, SyntheticSection.createHeader,
      CodeSection.finalizeContents, DataSection.finalizeContents,
      CustomSection.finalizeContents]

/-- Claim C8: after finalize, a custom section's `getSize` is header length
plus name-data length plus `PayloadSize`; the payload size is exactly the sum
of the contributing fragments' sizes (name encoding excluded, tracked in
`NameData`), and the total equals header plus full body (name plus payload). -/
theorem C8_custom_size_accounting (u0 : CustomSection) :
    (CustomSection.finalizeContents u0).getSize =
      some ((CustomSection.finalizeContents u0).Header.length +
            (CustomSection.finalizeContents u0).NameData.length +
            (CustomSection.finalizeContents u0).PayloadSize) ∧
    (CustomSection.finalizeContents u0).PayloadSize =
      (u0.InputSections.map (fun i => i.bytes.length)).sum ∧
    (CustomSection.finalizeContents u0).PayloadSize =
      ((u0.InputSections.map InputSection.bytes).flatten).length ∧
    (CustomSection.finalizeContents u0).NameData = encodeStr u0.Name ∧
    (CustomSection.finalizeContents u0).getSize =
      some ((CustomSection.finalizeContents u0).Header.length +
            (CustomSection.finalizeContents u0).bodyBytes.length) := by
  refine ⟨rfl, rfl, ?_, rfl, ?_⟩ <;>
    simp [CustomSection.finalizeContents, CustomSection.getSize, CustomSection.bodyBytes,
      List.length_flatten, List.map_map, Function.comp_def, Nat.add_assoc]

/-- Claim C9: under the virtual dispatch, sections that do not override the
relocation operations — plain synthetic sections and relocation sections —
report zero relocations and leave the relocation stream unchanged, while the
code, data and custom overrides are the ones dispatched for those kinds. -/
theorem C9_default_relocations (s r : SyntheticSection) (c : CodeSection)
    (d : DataSection) (u : CustomSection) (os : List Nat) :
    Sect.numRelocations (Sect.synthetic s) = 0 ∧
    Sect.numRelocations (Sect.reloc r) = 0 ∧
    Sect.writeRelocations (Sect.synthetic s) os = os ∧
    Sect.writeRelocations (Sect.reloc r) os = os ∧
    Sect.numRelocations (Sect.code c) = c.numRelocations ∧
    Sect.numRelocations (Sect.data d) = d.numRelocations ∧
    Sect.numRelocations (Sect.custom u) = u.numRelocations ∧
    Sect.writeRelocations (Sect.code c) os = c.writeRelocations os ∧
    Sect.writeRelocations (Sect.data d) os = d.writeRelocations os ∧
    Sect.writeRelocations (Sect.custom u) os = u.writeRelocations os :=
  ⟨rfl, rfl, rfl, rfl, rfl, rfl, rfl, rfl, rfl, rfl⟩

/-- Claim C10: the section type and name are fixed at construction —
`setOffset` changes only the offset (and a re-assignment overwrites the
previous one), and finalize preserves type and name on every section kind. -/
theorem C10_type_name_immutable (s : SyntheticSection) (n m : Nat)
    (wb : SyntheticSection → List Nat) (c : CodeSection) (d : DataSection)
    (u : CustomSection) :
    (s.setOffset n).SecType = s.SecType ∧ (s.setOffset n).Name = s.Name ∧
    (s.setOffset n).Header = s.Header ∧ (s.setOffset n).Body = s.Body ∧
    (s.setOffset n).pending = s.pending ∧ (s.setOffset n).Offset = n ∧
    (s.setOffset n).setOffset m = s.setOffset m ∧
    (SyntheticSection.finalizeContents wb s).SecType = s.SecType ∧
    (SyntheticSection.finalizeContents wb s).Name = s.Name ∧
    (SyntheticSection.finalizeContents wb s).Offset = s.Offset ∧
    (c.setOffset n).SecType = c.SecType ∧ (c.setOffset n).Name = c.Name ∧
    (d.setOffset n).SecType = d.SecType ∧ (d.setOffset n).Name = d.Name ∧
    (u.setOffset n).SecType = u.SecType ∧ (u.setOffset n).Name = u.Name ∧
    (CodeSection.finalizeContents c).SecType = c.SecType ∧
    (CodeSection.finalizeContents c).Name = c.Name ∧
    (DataSection.finalizeContents d).SecType = d.SecType ∧
    (DataSection.finalizeContents d).Name = d.Name ∧
    (CustomSection.finalizeContents u).SecType = u.SecType ∧
    (CustomSection.finalizeContents u).Name = u.Name :=
  ⟨rfl, rfl, rfl, rfl, rfl, rfl, rfl, rfl, rfl, rfl, rfl, rfl, rfl, rfl, rfl, rfl,
   rfl, rfl, rfl, rfl, rfl, rfl⟩
